import Mathlib

/-!
Verification of the landingai Go SDK (client library for the Landing AI
document-parsing HTTP API) against its natural-language specification.

The Go source is shallowly embedded: pure functions become Lean functions,
the effectful submit operation (file reads, the HTTP call) is modelled by
explicit oracles for the file system and the transport together with an
explicit list of performed effects, and fallible operations return
Option/Except.  JSON decoding of wire bytes is delegated to an external
primitive in the source (encoding/json); here a response body is a raw
string paired with the already-parsed JSON value (none when the bytes are
not valid JSON), and the typed unmarshalling of that JSON value into the
source structs is modelled faithfully.  JSON numbers are modelled as exact
rationals; Go float64 rounding is not modelled.  JSON object keys are
matched exactly (Go additionally falls back to a case-insensitive match,
which no key in this API exercises).
-/

/-- A JSON value, as produced by the decode primitive consumed by the SDK. -/
inductive Json where
  | null
  | bool (b : Bool)
  | num (q : Rat)
  | str (s : String)
  | arr (elems : List Json)
  | obj (fields : List (String × Json))

/-- An HTTP response body: the raw text together with the result of the JSON
parse primitive on it (none when the body is not parseable as JSON). -/
structure RawBody where
  raw : String
  parsed : Option Json

/-- Go object decoding into a map assigns duplicate keys in order, so the last
occurrence wins. -/
def mapGet (fields : List (String × Json)) (k : String) : Option Json :=
  fields.reverse.lookup k

/-! ## region.go -/

/-- Region is a string type in the source (type Region string). -/
abbrev Region := String

def RegionUS : Region := "us"

def RegionEU : Region := "eu"

def baseURLUS : String := "https://api.va.landing.ai"

def baseURLEU : String := "https://api.va.eu-west-1.landing.ai"

/-- Region.BaseURL: switch over the region with default falling to the US URL. -/
def Region.BaseURL (r : Region) : String :=
  if r = RegionEU then baseURLEU
  else if r = RegionUS then baseURLUS
  else baseURLUS

/-! ## status.go constants -/

def StatusOK : Int := 200
def StatusPartialContent : Int := 206
def StatusBadRequest : Int := 400
def StatusUnauthorized : Int := 401
def StatusPaymentRequired : Int := 402
def StatusUnprocessableEntity : Int := 422
def StatusTooManyRequests : Int := 429
def StatusInternalServerError : Int := 500
def StatusGatewayTimeout : Int := 504

/-! ## errors.go -/

/-- APIError: status code, human-readable message, optional untyped detail.
The Go field Detail is an interface holding either a decoded JSON value or
the raw body string; both cases are Json values here. -/
structure APIError where
  StatusCode : Int
  Message : String
  Detail : Option Json

def APIError.IsUnauthorized (e : APIError) : Bool :=
  e.StatusCode == StatusUnauthorized

def APIError.IsPaymentRequired (e : APIError) : Bool :=
  e.StatusCode == StatusPaymentRequired

def APIError.IsRateLimited (e : APIError) : Bool :=
  e.StatusCode == StatusTooManyRequests

def APIError.IsBadRequest (e : APIError) : Bool :=
  e.StatusCode == StatusBadRequest

def APIError.IsValidationError (e : APIError) : Bool :=
  e.StatusCode == StatusUnprocessableEntity

def APIError.IsServerError (e : APIError) : Bool :=
  decide (StatusInternalServerError ≤ e.StatusCode)

def APIError.IsTimeout (e : APIError) : Bool :=
  e.StatusCode == StatusGatewayTimeout

def APIError.IsPartialContent (e : APIError) : Bool :=
  e.StatusCode == StatusPartialContent

/-- One validation record (json tags: loc, msg, type). -/
structure ValidationError where
  Location : List Json
  Message : String
  «Type» : String

/-- The 422 validation body shape (json tag: detail). -/
structure ValidationErrors where
  Detail : List ValidationError

/-- ValidationErrors.Error: the message of the first record only, or the bare
prefix when the detail list is empty. -/
def ValidationErrors.Error (v : ValidationErrors) : String :=
  match v.Detail with
  | [] => "validation error"
  | e :: _ => "validation error: " ++ e.Message

/-! ## client.go -/

/-- DefaultTimeout is 300 seconds; durations are modelled in seconds. -/
def DefaultTimeout : Int := 300

/-- The HTTP client handle is modelled by its one observable configuration,
the timeout. -/
structure Client where
  apiKey : String
  baseURL : String
  httpTimeout : Int
  region : Region

/-- Client options are closures in Go; each recognized option is one
constructor.  withHTTPClient replaces the HTTP client handle (observably:
its timeout); withTimeout mutates the active handle. -/
inductive ClientOption where
  | withRegion (r : Region)
  | withBaseURL (u : String)
  | withHTTPClient (timeout : Int)
  | withTimeout (timeout : Int)

def ClientOption.apply (o : ClientOption) (c : Client) : Client :=
  match o with
  | .withRegion r => { c with region := r, baseURL := r.BaseURL }
  | .withBaseURL u => { c with baseURL := u }
  | .withHTTPClient t => { c with httpTimeout := t }
  | .withTimeout t => { c with httpTimeout := t }

/-- The literal Client before options are applied: US region, empty base URL
(the Go zero value), default timeout. -/
def initialClient (apiKey : String) : Client :=
  { apiKey := apiKey, baseURL := "", httpTimeout := DefaultTimeout, region := RegionUS }

/-- After options: set the base URL from the region if none was set. -/
def finishClient (c : Client) : Client :=
  if c.baseURL = "" then { c with baseURL := c.region.BaseURL } else c

def NewClient (apiKey : String) (opts : List ClientOption) : Client :=
  finishClient (opts.foldl (fun c o => o.apply c) (initialClient apiKey))

def Client.APIKey (c : Client) : String := c.apiKey

def Client.BaseURL (c : Client) : String := c.baseURL

/-! ## types.go -/

abbrev SplitType := String

def SplitTypePage : SplitType := "page"

abbrev GroundingType := String

structure ParseGroundingBox where
  Left : Rat := 0
  Top : Rat := 0
  Right : Rat := 0
  Bottom : Rat := 0

structure ParseGrounding where
  Box : ParseGroundingBox := {}
  Page : Int := 0

structure ParseChunk where
  Markdown : String := ""
  «Type» : String := ""
  ID : String := ""
  Grounding : ParseGrounding := {}

structure ParseSplit where
  Class : String := ""
  Identifier : String := ""
  Pages : List Int := []
  Markdown : String := ""
  Chunks : List String := []

structure ParseResponseGrounding where
  Box : ParseGroundingBox := {}
  Page : Int := 0
  «Type» : GroundingType := ""

structure ParseMetadata where
  Filename : String := ""
  OrgID : Option String := none
  PageCount : Int := 0
  DurationMs : Int := 0
  CreditUsage : Rat := 0
  JobID : String := ""
  Version : Option String := none
  FailedPages : List Int := []

/-- The Go grounding map (map from string id to grounding record) is kept as
an association list; keys of real responses are unique. -/
structure ParseResponse where
  Markdown : String := ""
  Chunks : List ParseChunk := []
  Splits : List ParseSplit := []
  Grounding : List (String × ParseResponseGrounding) := []
  Metadata : ParseMetadata := {}

/-! ## Typed unmarshalling (encoding/json semantics for the source structs)

Unmarshalling a JSON value into a struct succeeds on an object (fields
assigned in order, unknown keys ignored, a JSON null value leaves the field
unchanged) and on null (no-op), and fails on any other value.  A null
assigned to a pointer or slice field sets it to nil.  Numbers decode into
int fields only when integral. -/

def setStr (v : Json) (cur : String) : Option String :=
  match v with
  | .null => some cur
  | .str s => some s
  | _ => none

def setOptStr (v : Json) : Option (Option String) :=
  match v with
  | .null => some none
  | .str s => some (some s)
  | _ => none

def setNum (v : Json) (cur : Rat) : Option Rat :=
  match v with
  | .null => some cur
  | .num q => some q
  | _ => none

def jsonToInt (v : Json) : Option Int :=
  match v with
  | .num q => if q.den = 1 then some q.num else none
  | _ => none

def setInt (v : Json) (cur : Int) : Option Int :=
  match v with
  | .null => some cur
  | v => jsonToInt v

def setIntList (v : Json) : Option (List Int) :=
  match v with
  | .null => some []
  | .arr xs => xs.mapM jsonToInt
  | _ => none

def setStrList (v : Json) : Option (List String) :=
  match v with
  | .null => some []
  | .arr xs => xs.mapM (fun x => match x with | .str s => some s | _ => none)
  | _ => none

def unmarshalValidationError (j : Json) : Option ValidationError :=
  match j with
  | .null => some ⟨[], "", ""⟩
  | .obj fields =>
    fields.foldlM (fun (ve : ValidationError) kv =>
      match kv.1, kv.2 with
      | "loc", .null => some ve
      | "loc", .arr xs => some { ve with Location := xs }
      | "loc", _ => none
      | "msg", v => (setStr v ve.Message).map (fun s => { ve with Message := s })
      | "type", v => (setStr v ve.«Type»).map (fun s => { ve with «Type» := s })
      | _, _ => some ve) ⟨[], "", ""⟩
  | _ => none

def unmarshalValidationErrors (j : Json) : Option ValidationErrors :=
  match j with
  | .null => some ⟨[]⟩
  | .obj fields =>
    fields.foldlM (fun (v : ValidationErrors) kv =>
      match kv.1, kv.2 with
      | "detail", .null => some { v with Detail := [] }
      | "detail", .arr xs => (xs.mapM unmarshalValidationError).map (fun l => { v with Detail := l })
      | "detail", _ => none
      | _, _ => some v) ⟨[]⟩
  | _ => none

def unmarshalBox (j : Json) : Option ParseGroundingBox :=
  match j with
  | .null => some {}
  | .obj fields =>
    fields.foldlM (fun (box : ParseGroundingBox) kv =>
      match kv.1 with
      | "left" => (setNum kv.2 box.Left).map (fun x => { box with Left := x })
      | "top" => (setNum kv.2 box.Top).map (fun x => { box with Top := x })
      | "right" => (setNum kv.2 box.Right).map (fun x => { box with Right := x })
      | "bottom" => (setNum kv.2 box.Bottom).map (fun x => { box with Bottom := x })
      | _ => some box) {}
  | _ => none

def unmarshalGrounding (j : Json) : Option ParseGrounding :=
  match j with
  | .null => some {}
  | .obj fields =>
    fields.foldlM (fun (g : ParseGrounding) kv =>
      match kv.1, kv.2 with
      | "box", .null => some g
      | "box", v => (unmarshalBox v).map (fun b => { g with Box := b })
      | "page", v => (setInt v g.Page).map (fun p => { g with Page := p })
      | _, _ => some g) {}
  | _ => none

def unmarshalChunk (j : Json) : Option ParseChunk :=
  match j with
  | .null => some {}
  | .obj fields =>
    fields.foldlM (fun (c : ParseChunk) kv =>
      match kv.1, kv.2 with
      | "markdown", v => (setStr v c.Markdown).map (fun s => { c with Markdown := s })
      | "type", v => (setStr v c.«Type»).map (fun s => { c with «Type» := s })
      | "id", v => (setStr v c.ID).map (fun s => { c with ID := s })
      | "grounding", .null => some c
      | "grounding", v => (unmarshalGrounding v).map (fun g => { c with Grounding := g })
      | _, _ => some c) {}
  | _ => none

def unmarshalSplit (j : Json) : Option ParseSplit :=
  match j with
  | .null => some {}
  | .obj fields =>
    fields.foldlM (fun (s : ParseSplit) kv =>
      match kv.1, kv.2 with
      | "class", v => (setStr v s.Class).map (fun x => { s with Class := x })
      | "identifier", v => (setStr v s.Identifier).map (fun x => { s with Identifier := x })
      | "pages", v => (setIntList v).map (fun x => { s with Pages := x })
      | "markdown", v => (setStr v s.Markdown).map (fun x => { s with Markdown := x })
      | "chunks", v => (setStrList v).map (fun x => { s with Chunks := x })
      | _, _ => some s) {}
  | _ => none

def unmarshalResponseGrounding (j : Json) : Option ParseResponseGrounding :=
  match j with
  | .null => some {}
  | .obj fields =>
    fields.foldlM (fun (g : ParseResponseGrounding) kv =>
      match kv.1, kv.2 with
      | "box", .null => some g
      | "box", v => (unmarshalBox v).map (fun b => { g with Box := b })
      | "page", v => (setInt v g.Page).map (fun p => { g with Page := p })
      | "type", v => (setStr v g.«Type»).map (fun s => { g with «Type» := s })
      | _, _ => some g) {}
  | _ => none

def unmarshalMetadata (j : Json) : Option ParseMetadata :=
  match j with
  | .null => some {}
  | .obj fields =>
    fields.foldlM (fun (m : ParseMetadata) kv =>
      match kv.1, kv.2 with
      | "filename", v => (setStr v m.Filename).map (fun s => { m with Filename := s })
      | "org_id", v => (setOptStr v).map (fun s => { m with OrgID := s })
      | "page_count", v => (setInt v m.PageCount).map (fun n => { m with PageCount := n })
      | "duration_ms", v => (setInt v m.DurationMs).map (fun n => { m with DurationMs := n })
      | "credit_usage", v => (setNum v m.CreditUsage).map (fun q => { m with CreditUsage := q })
      | "job_id", v => (setStr v m.JobID).map (fun s => { m with JobID := s })
      | "version", v => (setOptStr v).map (fun s => { m with Version := s })
      | "failed_pages", v => (setIntList v).map (fun l => { m with FailedPages := l })
      | _, _ => some m) {}
  | _ => none

def unmarshalParseResponse (j : Json) : Option ParseResponse :=
  match j with
  | .null => some {}
  | .obj fields =>
    fields.foldlM (fun (r : ParseResponse) kv =>
      match kv.1, kv.2 with
      | "markdown", v => (setStr v r.Markdown).map (fun s => { r with Markdown := s })
      | "chunks", .null => some { r with Chunks := [] }
      | "chunks", .arr xs => (xs.mapM unmarshalChunk).map (fun l => { r with Chunks := l })
      | "chunks", _ => none
      | "splits", .null => some { r with Splits := [] }
      | "splits", .arr xs => (xs.mapM unmarshalSplit).map (fun l => { r with Splits := l })
      | "splits", _ => none
      | "grounding", .null => some { r with Grounding := [] }
      | "grounding", .obj gs =>
        (gs.mapM (fun kg => (unmarshalResponseGrounding kg.2).map (fun g => (kg.1, g)))).map
          (fun l => { r with Grounding := l })
      | "grounding", _ => none
      | "metadata", .null => some r
      | "metadata", v => (unmarshalMetadata v).map (fun m => { r with Metadata := m })
      | _, _ => some r) {}
  | _ => none

/-- json.Unmarshal of the response body bytes into a ParseResponse: fails on
invalid JSON, otherwise decodes the parsed value. -/
def decodeParseResponse (body : RawBody) : Option ParseResponse :=
  body.parsed.bind unmarshalParseResponse

/-! ## Error classification (parse.go) -/

/-- getErrorMessage: the fixed message table keyed by status code. -/
def getErrorMessage (statusCode : Int) : String :=
  if statusCode = StatusBadRequest then "Bad request: Invalid request parameters"
  else if statusCode = StatusUnauthorized then "Unauthorized: Invalid or missing API key"
  else if statusCode = StatusPaymentRequired then "Payment required: Insufficient credits"
  else if statusCode = StatusUnprocessableEntity then "Unprocessable entity: Input validation failed"
  else if statusCode = StatusTooManyRequests then "Too many requests: Rate limit exceeded"
  else if statusCode = StatusInternalServerError then "Internal server error: Failed to process document"
  else if statusCode = StatusGatewayTimeout then "Gateway timeout: Request processing exceeded time limit"
  else "API request failed with status " ++ toString statusCode

/-- The detail stored on a generic APIError: json.Unmarshal of the body into
a map succeeds on an object (extract the detail key if present) and on null
(no detail); on any other body, valid JSON or not, the raw body text is
stored as the detail. -/
def extractDetail (body : RawBody) : Option Json :=
  match body.parsed with
  | some (Json.obj fields) => mapGet fields "detail"
  | some Json.null => none
  | some _ => some (Json.str body.raw)
  | none => some (Json.str body.raw)

/-- The errors a submit call can return. The source returns plain wrapped
errors for the first three cases; the spec taxonomy names them
ConfigurationError, TransportError and DecodingError. -/
inductive GoError where
  | configurationError (msg : String)
  | fileReadError (path : String)
  | transportError (url : String)
  | decodingError (raw : String)
  | api (e : APIError)
  | validation (v : ValidationErrors)

/-- handleErrorResponse: on a 422, first try to unmarshal the body as the
validation shape; any other outcome builds a generic APIError from the
message table and the extracted detail. -/
def handleErrorResponse (statusCode : Int) (body : RawBody) : GoError :=
  match (if statusCode = StatusUnprocessableEntity
         then body.parsed.bind unmarshalValidationErrors
         else none) with
  | some v => GoError.validation v
  | none =>
    GoError.api { StatusCode := statusCode, Message := getErrorMessage statusCode,
                  Detail := extractDetail body }

/-! ## The parse request builder (parse.go) -/

/-- One part of the multipart form body: a text field or a file part. -/
inductive FormPart where
  | field (name value : String)
  | file (name filename : String) (content : List Nat)

/-- The wire request produced by the builder.  The multipart boundary of the
content type is not modelled. -/
structure HttpRequest where
  method : String
  url : String
  authorization : String
  contentType : String
  parts : List FormPart

/-- The externally visible effects a submit call performs, in order. -/
inductive Effect where
  | readFile (path : String)
  | httpCall (req : HttpRequest)

/-- The builder: one client, one pending configuration.  Defaults are the Go
zero values of the struct allocated by Client.Parse. -/
structure ParseRequestBuilder where
  client : Client
  model : Option String := none
  documentURL : Option String := none
  filePath : String := ""
  fileData : Option (List Nat) := none
  fileName : String := ""
  split : Option SplitType := none

def Client.Parse (c : Client) : ParseRequestBuilder :=
  { client := c }

def ParseRequestBuilder.WithModel (b : ParseRequestBuilder) (model : String) :
    ParseRequestBuilder :=
  { b with model := some model }

def ParseRequestBuilder.WithURL (b : ParseRequestBuilder) (url : String) :
    ParseRequestBuilder :=
  { b with documentURL := some url }

def ParseRequestBuilder.WithFile (b : ParseRequestBuilder) (filePath : String) :
    ParseRequestBuilder :=
  { b with filePath := filePath }

def ParseRequestBuilder.WithFileData (b : ParseRequestBuilder) (data : List Nat)
    (filename : String) : ParseRequestBuilder :=
  { b with fileData := some data, fileName := filename }

def ParseRequestBuilder.WithSplit (b : ParseRequestBuilder) (split : SplitType) :
    ParseRequestBuilder :=
  { b with split := some split }

def ParseRequestBuilder.WithPageSplit (b : ParseRequestBuilder) : ParseRequestBuilder :=
  { b with split := some SplitTypePage }

/-- filepath.Base on slash-separated paths: empty path gives ".", trailing
separators are stripped, all-separator paths give "/", otherwise the last
component. -/
def filepathBase (path : String) : String :=
  if path = "" then "."
  else
    let cs := path.toList.reverse.dropWhile (fun c => c == '/')
    if cs = [] then "/"
    else String.mk (cs.takeWhile (fun c => c != '/')).reverse

/-- The optional model and split text fields appended to either request
variant. -/
def optionalParts (b : ParseRequestBuilder) : List FormPart :=
  (match b.model with
   | some m => [FormPart.field "model" m]
   | none => []) ++
  (match b.split with
   | some s => [FormPart.field "split" s]
   | none => [])

/-- buildURLRequest: a multipart body with the document_url text field. -/
def buildURLRequest (b : ParseRequestBuilder) (u : String) : HttpRequest :=
  { method := "POST", url := b.client.baseURL ++ "/v1/ade/parse",
    authorization := "Bearer " ++ b.client.apiKey,
    contentType := "multipart/form-data",
    parts := FormPart.field "document_url" u :: optionalParts b }

/-- The file-variant request with a resolved filename and content. -/
def mkFileRequest (b : ParseRequestBuilder) (filename : String) (content : List Nat) :
    HttpRequest :=
  { method := "POST", url := b.client.baseURL ++ "/v1/ade/parse",
    authorization := "Bearer " ++ b.client.apiKey,
    contentType := "multipart/form-data",
    parts := FormPart.file "document" filename content :: optionalParts b }

/-- buildRequest: the URL variant when a document URL is set, otherwise the
file variant — in-memory bytes checked first with the supplied filename,
else the file at the path is read (one readFile effect) and its base name
used. -/
def buildRequest (b : ParseRequestBuilder) (fs : String → Option (List Nat)) :
    Except GoError HttpRequest × List Effect :=
  match b.documentURL with
  | some u => (Except.ok (buildURLRequest b u), [])
  | none =>
    match b.fileData with
    | some data => (Except.ok (mkFileRequest b b.fileName data), [])
    | none =>
      match fs b.filePath with
      | some content =>
        (Except.ok (mkFileRequest b (filepathBase b.filePath) content),
         [Effect.readFile b.filePath])
      | none => (Except.error (GoError.fileReadError b.filePath), [Effect.readFile b.filePath])

/-- The response-interpretation step of Do: statuses outside [200,300) are
routed to the classifier; statuses inside are decoded as a ParseResponse,
a malformed body being a decoding error. -/
def interpretResponse (statusCode : Int) (body : RawBody) :
    Except GoError ParseResponse :=
  if statusCode < 200 ∨ 300 ≤ statusCode then
    Except.error (handleErrorResponse statusCode body)
  else
    match decodeParseResponse body with
    | some r => Except.ok r
    | none => Except.error (GoError.decodingError body.raw)

/-- Do: validate, build the request (possibly reading a file), execute it
against the transport oracle (none = network failure), and interpret the
response.  The second component lists the performed effects in order. -/
def ParseRequestBuilder.Do (b : ParseRequestBuilder)
    (fs : String → Option (List Nat))
    (http : HttpRequest → Option (Int × RawBody)) :
    Except GoError ParseResponse × List Effect :=
  if b.documentURL ≠ none ∧ (b.filePath ≠ "" ∨ b.fileData ≠ none) then
    (Except.error (GoError.configurationError "cannot provide both document URL and file"), [])
  else if b.documentURL = none ∧ b.filePath = "" ∧ b.fileData = none then
    (Except.error (GoError.configurationError "must provide either document URL or file"), [])
  else
    match buildRequest b fs with
    | (Except.error e, effs) => (Except.error e, effs)
    | (Except.ok req, effs) =>
      match http req with
      | none => (Except.error (GoError.transportError req.url), effs ++ [Effect.httpCall req])
      | some (status, body) => (interpretResponse status body, effs ++ [Effect.httpCall req])

/-- A concrete client for witnesses. -/
def demoClient : Client := NewClient "test-api-key" []

/-! ## Helper lemmas -/

lemma Region.baseURL_ne_empty (r : Region) : r.BaseURL ≠ "" := by
  unfold Region.BaseURL
  split
  · decide
  · split <;> decide

lemma handleErrorResponse_api_inv (s : Int) (b : RawBody) (e : APIError)
    (h : handleErrorResponse s b = GoError.api e) :
    e = ⟨s, getErrorMessage s, extractDetail b⟩ := by
  unfold handleErrorResponse at h
  split at h
  · exact GoError.noConfusion h
  · injection h with h
    exact h.symm

/-! ## Claims about the region resolver, the predicates and client options -/

/-- C7: base-URL resolution is total: the US tag maps to the US URL, the EU
tag to the EU URL, and every other tag (the empty tag included) to the US
URL. -/
theorem c7_region_baseURL_total :
    Region.BaseURL RegionUS = "https://api.va.landing.ai"
    ∧ Region.BaseURL RegionEU = "https://api.va.eu-west-1.landing.ai"
    ∧ Region.BaseURL "" = "https://api.va.landing.ai"
    ∧ ∀ r : Region, r ≠ RegionEU → Region.BaseURL r = "https://api.va.landing.ai" := by
  refine ⟨by decide, by decide, by decide, ?_⟩
  intro r h
  unfold Region.BaseURL
  rw [if_neg h]
  split <;> rfl

/-- Witness for C7 at the unrecognized tag "mars". -/
theorem c7_region_baseURL_total_witness :
    Region.BaseURL "mars" = "https://api.va.landing.ai" :=
  c7_region_baseURL_total.2.2.2 "mars" (by decide)

/-- C8: every classification predicate is a pure function of the stored
status code with the documented criterion; in particular a 401 error is
Unauthorized but not BadRequest, and a 504 error is both Timeout and
ServerError. -/
theorem c8_predicates (e : APIError) :
    (e.IsUnauthorized = true ↔ e.StatusCode = 401)
    ∧ (e.IsBadRequest = true ↔ e.StatusCode = 400)
    ∧ (e.IsRateLimited = true ↔ e.StatusCode = 429)
    ∧ (e.IsServerError = true ↔ 500 ≤ e.StatusCode)
    ∧ (e.IsTimeout = true ↔ e.StatusCode = 504)
    ∧ (e.StatusCode = 401 → e.IsUnauthorized = true ∧ e.IsBadRequest = false)
    ∧ (e.StatusCode = 504 → e.IsTimeout = true ∧ e.IsServerError = true) := by
  refine ⟨?_, ?_, ?_, ?_, ?_, ?_, ?_⟩
  · simp [APIError.IsUnauthorized, StatusUnauthorized]
  · simp [APIError.IsBadRequest, StatusBadRequest]
  · simp [APIError.IsRateLimited, StatusTooManyRequests]
  · simp [APIError.IsServerError, StatusInternalServerError]
  · simp [APIError.IsTimeout, StatusGatewayTimeout]
  · intro h
    simp [APIError.IsUnauthorized, APIError.IsBadRequest, StatusUnauthorized,
      StatusBadRequest, h]
  · intro h
    simp [APIError.IsTimeout, APIError.IsServerError, StatusGatewayTimeout,
      StatusInternalServerError, h]

/-- Witness for C8 at concrete 401 and 504 errors. -/
theorem c8_predicates_witness :
    (APIError.IsUnauthorized ⟨401, "Unauthorized", none⟩ = true
      ∧ APIError.IsBadRequest ⟨401, "Unauthorized", none⟩ = false)
    ∧ (APIError.IsTimeout ⟨504, "Gateway Timeout", none⟩ = true
      ∧ APIError.IsServerError ⟨504, "Gateway Timeout", none⟩ = true) :=
  ⟨(c8_predicates ⟨401, "Unauthorized", none⟩).2.2.2.2.2.1 rfl,
   (c8_predicates ⟨504, "Gateway Timeout", none⟩).2.2.2.2.2.2 rfl⟩

/-- C10: the ValidationErrors message is "validation error" when the detail
list is empty and otherwise reports only the first record, however many
records the list contains. -/
theorem c10_validation_errors_message (v : ValidationErrors) :
    (v.Detail = [] → v.Error = "validation error")
    ∧ ∀ e rest, v.Detail = e :: rest → v.Error = "validation error: " ++ e.Message := by
  constructor
  · intro h
    unfold ValidationErrors.Error
    rw [h]
  · intro e rest h
    unfold ValidationErrors.Error
    rw [h]

/-- Witness for C10: a two-record list reports only the first message, and
the empty list gives the bare message. -/
theorem c10_validation_errors_message_witness :
    ValidationErrors.Error ⟨[⟨[], "first", "value_error"⟩, ⟨[], "second", "value_error"⟩]⟩
        = "validation error: first"
    ∧ ValidationErrors.Error ⟨[]⟩ = "validation error" :=
  ⟨(c10_validation_errors_message ⟨[⟨[], "first", "value_error"⟩, ⟨[], "second", "value_error"⟩]⟩).2
      ⟨[], "first", "value_error"⟩ [⟨[], "second", "value_error"⟩] rfl,
   (c10_validation_errors_message ⟨[]⟩).1 rfl⟩

/-- C6 counterexample: applying the base-URL override with the empty string
after a region option leaves the field derived from the region, not the
empty string the last-applied option wrote. -/
theorem c6_last_write_counterexample :
    (NewClient "k" [ClientOption.withRegion RegionEU, ClientOption.withBaseURL ""]).baseURL ≠ ""
    ∧ (NewClient "k" [ClientOption.withRegion RegionEU, ClientOption.withBaseURL ""]).baseURL
        = "https://api.va.eu-west-1.landing.ai" := by
  constructor
  · decide
  · decide

/-- C6 (amended): option application is last-write-wins on the base URL
provided the last base-URL-writing option writes a nonempty string: a
nonempty override applied after any options (region selection included)
takes precedence, and a region option applied after any options (an
override included) replaces the base URL with the region URL; an override
written with the empty string instead falls back to region derivation. -/
theorem c6_last_write_wins (key u : String) (r : Region) (opts : List ClientOption)
    (hu : u ≠ "") :
    (NewClient key (opts ++ [ClientOption.withBaseURL u])).baseURL = u
    ∧ (NewClient key (opts ++ [ClientOption.withRegion r])).baseURL = r.BaseURL := by
  constructor
  · unfold NewClient finishClient
    rw [List.foldl_append]
    simp only [List.foldl, ClientOption.apply]
    rw [if_neg hu]
  · unfold NewClient finishClient
    rw [List.foldl_append]
    simp only [List.foldl, ClientOption.apply]
    rw [if_neg (Region.baseURL_ne_empty r)]

/-- Witness for C6 (amended): override after region, and region after
override, each at concrete inputs. -/
theorem c6_last_write_wins_witness :
    (NewClient "k" ([ClientOption.withRegion RegionEU]
        ++ [ClientOption.withBaseURL "https://custom.example.com"])).baseURL
      = "https://custom.example.com"
    ∧ (NewClient "k" ([ClientOption.withBaseURL "https://custom.example.com"]
        ++ [ClientOption.withRegion RegionEU])).baseURL
      = "https://api.va.eu-west-1.landing.ai" :=
  ⟨(c6_last_write_wins "k" "https://custom.example.com" RegionEU
      [ClientOption.withRegion RegionEU] (by decide)).1,
   (c6_last_write_wins "k" "https://custom.example.com" RegionEU
      [ClientOption.withBaseURL "https://custom.example.com"] (by decide)).2⟩

/-- C9: whenever applying the options leaves the base URL field empty (an
empty explicit override, or no base-URL-affecting option at all), the
constructed Client derives its base URL from its region field. -/
theorem c9_empty_baseURL_falls_back_to_region (key : String) (opts : List ClientOption)
    (h : (opts.foldl (fun c o => o.apply c) (initialClient key)).baseURL = "") :
    (NewClient key opts).baseURL
      = Region.BaseURL ((opts.foldl (fun c o => o.apply c) (initialClient key)).region) := by
  unfold NewClient finishClient
  rw [if_pos h]

/-- Witness for C9: an empty explicit override and no option at all both
yield the region-derived (US) URL. -/
theorem c9_empty_baseURL_falls_back_to_region_witness :
    (NewClient "k" [ClientOption.withBaseURL ""]).baseURL = Region.BaseURL RegionUS
    ∧ (NewClient "k" []).baseURL = Region.BaseURL RegionUS :=
  ⟨c9_empty_baseURL_falls_back_to_region "k" [ClientOption.withBaseURL ""] (by decide),
   c9_empty_baseURL_falls_back_to_region "k" [] (by decide)⟩

/-- C2: for status exactly 422, a body unmarshalling into the validation
shape yields the ValidationErrors value (taking precedence over the generic
APIError path); a body that does not yields a generic APIError with status
422, IsValidationError true, and detail extracted from the body — on the
body with detail "something else", exactly that detail. -/
theorem c2_status_422_classification (body : RawBody) :
    (∀ v, body.parsed.bind unmarshalValidationErrors = some v →
        handleErrorResponse 422 body = GoError.validation v)
    ∧ (body.parsed.bind unmarshalValidationErrors = none →
        handleErrorResponse 422 body
          = GoError.api ⟨422, getErrorMessage 422, extractDetail body⟩
        ∧ (⟨422, getErrorMessage 422, extractDetail body⟩ : APIError).IsValidationError = true)
    ∧ handleErrorResponse 422
        ⟨"\x7b\"detail\":\"something else\"\x7d",
         some (Json.obj [("detail", Json.str "something else")])⟩
      = GoError.api ⟨422, "Unprocessable entity: Input validation failed",
                     some (Json.str "something else")⟩ := by
  refine ⟨?_, ?_, ?_⟩
  · intro v hv
    unfold handleErrorResponse
    rw [if_pos (by decide), hv]
  · intro hn
    refine ⟨?_, rfl⟩
    unfold handleErrorResponse
    rw [if_pos (by decide), hn]
  · rfl

/-- Witness for C2: a body in the validation shape is classified as
ValidationErrors, and a non-JSON 422 body as an APIError with
IsValidationError true. -/
theorem c2_status_422_classification_witness :
    handleErrorResponse 422
        ⟨"\x7b\"detail\":[...]\x7d",
         some (Json.obj [("detail", Json.arr [Json.obj
           [("loc", Json.arr [Json.str "body", Json.str "model"]),
            ("msg", Json.str "bad model"),
            ("type", Json.str "value_error")]])])⟩
      = GoError.validation
          ⟨[⟨[Json.str "body", Json.str "model"], "bad model", "value_error"⟩]⟩
    ∧ handleErrorResponse 422 ⟨"oops", none⟩
        = GoError.api ⟨422, getErrorMessage 422, extractDetail ⟨"oops", none⟩⟩ :=
  ⟨(c2_status_422_classification
      ⟨"\x7b\"detail\":[...]\x7d",
       some (Json.obj [("detail", Json.arr [Json.obj
         [("loc", Json.arr [Json.str "body", Json.str "model"]),
          ("msg", Json.str "bad model"),
          ("type", Json.str "value_error")]])])⟩).1 _ rfl,
   ((c2_status_422_classification ⟨"oops", none⟩).2.1 rfl).1⟩

/-- C3: every generic APIError built by the classifier carries the status
it was built from, the message from the fixed table (with the listed seven
specific strings and the generic status-interpolated string for every
other code), the detail value of a JSON-object body containing the detail
key, and the raw body text as detail when the body is not parseable as
JSON. -/
theorem c3_api_error_message_and_detail (status : Int) (body : RawBody) (e : APIError)
    (h : handleErrorResponse status body = GoError.api e) :
    e.StatusCode = status
    ∧ e.Message = getErrorMessage status
    ∧ getErrorMessage 400 = "Bad request: Invalid request parameters"
    ∧ getErrorMessage 401 = "Unauthorized: Invalid or missing API key"
    ∧ getErrorMessage 402 = "Payment required: Insufficient credits"
    ∧ getErrorMessage 422 = "Unprocessable entity: Input validation failed"
    ∧ getErrorMessage 429 = "Too many requests: Rate limit exceeded"
    ∧ getErrorMessage 500 = "Internal server error: Failed to process document"
    ∧ getErrorMessage 504 = "Gateway timeout: Request processing exceeded time limit"
    ∧ (status ≠ 400 → status ≠ 401 → status ≠ 402 → status ≠ 422 → status ≠ 429 →
        status ≠ 500 → status ≠ 504 →
        getErrorMessage status = "API request failed with status " ++ toString status)
    ∧ (∀ fields d, body.parsed = some (Json.obj fields) → mapGet fields "detail" = some d →
        e.Detail = some d)
    ∧ (body.parsed = none → e.Detail = some (Json.str body.raw)) := by
  have he := handleErrorResponse_api_inv status body e h
  subst he
  refine ⟨rfl, rfl, rfl, rfl, rfl, rfl, rfl, rfl, rfl, ?_, ?_, ?_⟩
  · intro h400 h401 h402 h422 h429 h500 h504
    unfold getErrorMessage
    simp only [StatusBadRequest, StatusUnauthorized, StatusPaymentRequired,
      StatusUnprocessableEntity, StatusTooManyRequests, StatusInternalServerError,
      StatusGatewayTimeout]
    rw [if_neg h400, if_neg h401, if_neg h402, if_neg h422, if_neg h429, if_neg h500,
      if_neg h504]
  · intro fields d hp hd
    show extractDetail body = some d
    unfold extractDetail
    rw [hp]
    exact hd
  · intro hp
    show extractDetail body = some (Json.str body.raw)
    unfold extractDetail
    rw [hp]

/-- Witness for C3: a 555 response with a non-JSON body gets the generic
interpolated message and the raw body text as detail. -/
theorem c3_api_error_message_and_detail_witness :
    (⟨555, getErrorMessage 555, extractDetail ⟨"oops", none⟩⟩ : APIError).StatusCode = 555
    ∧ (⟨555, getErrorMessage 555, extractDetail ⟨"oops", none⟩⟩ : APIError).Detail
        = some (Json.str "oops")
    ∧ getErrorMessage 555 = "API request failed with status 555" := by
  have h := c3_api_error_message_and_detail 555 ⟨"oops", none⟩
      ⟨555, getErrorMessage 555, extractDetail ⟨"oops", none⟩⟩ rfl
  obtain ⟨h1, h2, h3, h4, h5, h6, h7, h8, h9, h10, h11, h12⟩ := h
  exact ⟨h1, h12 rfl,
    by rw [h10 (by decide) (by decide) (by decide) (by decide) (by decide) (by decide)
      (by decide)]; rfl⟩

/-- C1: Do fails with the configuration error "cannot provide both document
URL and file" whenever a document URL and a file source are both set, and
with "must provide either document URL or file" whenever no source is set;
in both cases no effect (no file read, no HTTP request) is performed, for
every file-system and transport oracle. -/
theorem c1_do_validation (b : ParseRequestBuilder)
    (fs : String → Option (List Nat)) (http : HttpRequest → Option (Int × RawBody)) :
    (b.documentURL ≠ none → (b.filePath ≠ "" ∨ b.fileData ≠ none) →
      b.Do fs http
        = (Except.error (GoError.configurationError "cannot provide both document URL and file"),
           []))
    ∧ (b.documentURL = none ∧ b.filePath = "" ∧ b.fileData = none →
      b.Do fs http
        = (Except.error (GoError.configurationError "must provide either document URL or file"),
           [])) := by
  constructor
  · intro h1 h2
    unfold ParseRequestBuilder.Do
    rw [if_pos ⟨h1, h2⟩]
  · rintro ⟨h1, h2, h3⟩
    unfold ParseRequestBuilder.Do
    rw [if_neg (fun hc => hc.1 h1), if_pos ⟨h1, h2, h3⟩]

/-- Witness for C1: a builder with both a URL and a file path, and a fresh
builder with no source. -/
theorem c1_do_validation_witness :
    ((demoClient.Parse.WithURL "https://example.com/doc.pdf").WithFile "document.pdf").Do
        (fun _ => none) (fun _ => none)
      = (Except.error (GoError.configurationError "cannot provide both document URL and file"),
         [])
    ∧ demoClient.Parse.Do (fun _ => none) (fun _ => none)
      = (Except.error (GoError.configurationError "must provide either document URL or file"),
         []) :=
  ⟨(c1_do_validation ((demoClient.Parse.WithURL "https://example.com/doc.pdf").WithFile
      "document.pdf") (fun _ => none) (fun _ => none)).1 (by decide) (Or.inl (by decide)),
   (c1_do_validation demoClient.Parse (fun _ => none) (fun _ => none)).2
      ⟨rfl, rfl, rfl⟩⟩

/-- C4: the response body is routed to the error classifier exactly when the
status is outside [200,300); every in-range status (206 included) decodes
the body as a ParseResponse, a malformed body yielding a decoding error and
never a classified APIError; consequently no error produced by response
interpretation satisfies IsPartialContent. -/
theorem c4_success_range_routing (status : Int) (body : RawBody) :
    ((status < 200 ∨ 300 ≤ status) →
      interpretResponse status body = Except.error (handleErrorResponse status body))
    ∧ (200 ≤ status → status < 300 →
      (∀ g, interpretResponse status body = Except.error g →
        g = GoError.decodingError body.raw ∧ decodeParseResponse body = none)
      ∧ (∀ r, decodeParseResponse body = some r →
        interpretResponse status body = Except.ok r))
    ∧ (∀ e, interpretResponse status body = Except.error (GoError.api e) →
      e.IsPartialContent = false) := by
  refine ⟨?_, ?_, ?_⟩
  · intro h
    unfold interpretResponse
    rw [if_pos h]
  · intro h200 h300
    have hin : ¬(status < 200 ∨ 300 ≤ status) := by omega
    constructor
    · intro g hg
      unfold interpretResponse at hg
      rw [if_neg hin] at hg
      cases hd : decodeParseResponse body with
      | none =>
        rw [hd] at hg
        injection hg with hg
        exact ⟨hg.symm, rfl⟩
      | some r =>
        rw [hd] at hg
        exact Except.noConfusion hg
    · intro r hr
      unfold interpretResponse
      rw [if_neg hin, hr]
  · intro e he
    by_cases h : status < 200 ∨ 300 ≤ status
    · unfold interpretResponse at he
      rw [if_pos h] at he
      injection he with he
      have hinv := handleErrorResponse_api_inv status body e he
      subst hinv
      simp only [APIError.IsPartialContent, StatusPartialContent]
      have : status ≠ 206 := by omega
      simpa using this
    · unfold interpretResponse at he
      rw [if_neg h] at he
      cases hd : decodeParseResponse body with
      | none =>
        rw [hd] at he
        injection he with he
        exact GoError.noConfusion he
      | some r =>
        rw [hd] at he
        exact Except.noConfusion he

/-- Witness for C4: a 422 is routed to the classifier; a 206 with a
malformed body is a decoding error, and a well-formed empty-object 206 body
decodes successfully. -/
theorem c4_success_range_routing_witness :
    interpretResponse 422 ⟨"bad", none⟩
      = Except.error (handleErrorResponse 422 ⟨"bad", none⟩)
    ∧ (GoError.decodingError "bad" = GoError.decodingError "bad"
        ∧ decodeParseResponse ⟨"bad", none⟩ = none)
    ∧ interpretResponse 206 ⟨"\x7b\x7d", some (Json.obj [])⟩
      = Except.ok {} :=
  ⟨(c4_success_range_routing 422 ⟨"bad", none⟩).1 (Or.inr (by decide)),
   ((c4_success_range_routing 206 ⟨"bad", none⟩).2.1 (by decide) (by decide)).1
      (GoError.decodingError "bad") rfl,
   ((c4_success_range_routing 206 ⟨"\x7b\x7d", some (Json.obj [])⟩).2.1 (by decide)
      (by decide)).2 {} rfl⟩

/-- C5: with no document URL set, in-memory bytes take precedence (a file
path being also set is not rejected and not read): the one file part
carries exactly those bytes under exactly the supplied filename; with only
a path set, the file is read from the path and the part filename is the
base name of the path with directories stripped. -/
theorem c5_file_source_resolution (b : ParseRequestBuilder)
    (fs : String → Option (List Nat)) (http : HttpRequest → Option (Int × RawBody))
    (hurl : b.documentURL = none) :
    (∀ data, b.fileData = some data →
      (b.Do fs http).2 = [Effect.httpCall (mkFileRequest b b.fileName data)]
      ∧ (mkFileRequest b b.fileName data).parts.head?
          = some (FormPart.file "document" b.fileName data))
    ∧ (b.fileData = none → b.filePath ≠ "" → ∀ content, fs b.filePath = some content →
      (b.Do fs http).2
        = [Effect.readFile b.filePath,
           Effect.httpCall (mkFileRequest b (filepathBase b.filePath) content)]
      ∧ (mkFileRequest b (filepathBase b.filePath) content).parts.head?
          = some (FormPart.file "document" (filepathBase b.filePath) content)) := by
  constructor
  · intro data hdata
    refine ⟨?_, rfl⟩
    cases hh : http (mkFileRequest b b.fileName data) with
    | none => simp [ParseRequestBuilder.Do, buildRequest, hurl, hdata, hh]
    | some v => simp [ParseRequestBuilder.Do, buildRequest, hurl, hdata, hh]
  · intro hdata hpath content hread
    refine ⟨?_, rfl⟩
    cases hh : http (mkFileRequest b (filepathBase b.filePath) content) with
    | none => simp [ParseRequestBuilder.Do, buildRequest, hurl, hdata, hpath, hread, hh]
    | some v => simp [ParseRequestBuilder.Do, buildRequest, hurl, hdata, hpath, hread, hh]

/-- Witness for C5: a builder with both a path and in-memory bytes uploads
the bytes under the supplied name without touching the file system, and a
path-only builder reads the path and strips its directories. -/
theorem c5_file_source_resolution_witness :
    (((demoClient.Parse.WithFile "ignored.pdf").WithFileData [1, 2, 3] "mem.pdf").Do
        (fun p => if p = "dir/sub/doc.pdf" then some [9, 9] else none) (fun _ => none)).2
      = [Effect.httpCall (mkFileRequest
          ((demoClient.Parse.WithFile "ignored.pdf").WithFileData [1, 2, 3] "mem.pdf")
          "mem.pdf" [1, 2, 3])]
    ∧ (mkFileRequest ((demoClient.Parse.WithFile "ignored.pdf").WithFileData [1, 2, 3]
          "mem.pdf") "mem.pdf" [1, 2, 3]).parts.head?
      = some (FormPart.file "document" "mem.pdf" [1, 2, 3])
    ∧ ((demoClient.Parse.WithFile "dir/sub/doc.pdf").Do
        (fun p => if p = "dir/sub/doc.pdf" then some [9, 9] else none) (fun _ => none)).2
      = [Effect.readFile "dir/sub/doc.pdf",
         Effect.httpCall (mkFileRequest (demoClient.Parse.WithFile "dir/sub/doc.pdf")
           "doc.pdf" [9, 9])] := by
  have h1 := (c5_file_source_resolution
      ((demoClient.Parse.WithFile "ignored.pdf").WithFileData [1, 2, 3] "mem.pdf")
      (fun p => if p = "dir/sub/doc.pdf" then some [9, 9] else none) (fun _ => none) rfl).1
      [1, 2, 3] rfl
  have h2 := (c5_file_source_resolution (demoClient.Parse.WithFile "dir/sub/doc.pdf")
      (fun p => if p = "dir/sub/doc.pdf" then some [9, 9] else none) (fun _ => none) rfl).2
      rfl (by decide) [9, 9] (by decide)
  exact ⟨h1.1, h1.2, h2.1⟩
